import Mathlib

/-!
Shallow embedding of the wikari UDP bulb-control library (src/bulb.ts,
src/wikari-error.ts, src/constants.ts, src/types.ts) and verification of
its behavioural claims.

The library maintains one process-wide connection state (`Bulb.state` is a
static field shared by every `Bulb` instance, because all instances share one
bound UDP socket).  Stateful code is embedded as explicit state passing:
each handler of the source becomes a Lean function from the relevant state
to the new state plus the promise settlement it performs.
-/

namespace Wikari

/-- Embeds `constants.ts`: `DEFAULT_DISCOVER_WAIT_MS = 1000`. -/
def DEFAULT_DISCOVER_WAIT_MS : Nat := 1000

/-- Embeds `constants.ts`: `DEFAULT_RESPONSE_WAIT_MS = 2000`. -/
def DEFAULT_RESPONSE_WAIT_MS : Nat := 2000

/-- Embeds `constants.ts`: `WIZ_BULB_LISTEN_PORT = 38899`. -/
def WIZ_BULB_LISTEN_PORT : Nat := 38899

/-- Embeds `constants.ts`: `UDP_BROADCAST_LISTEN_PORT = 38900`. -/
def UDP_BROADCAST_LISTEN_PORT : Nat := 38900

/-- Embeds the `WikariState` const enum of `bulb.ts`. -/
inductive WikariState where
  | IDLE
  | BINDING
  | READY
  | CLOSED
  | AWAITING_RESPONSE
deriving DecidableEq, Repr

/-- A decoded inbound JSON payload, as far as `sendWithWait`'s
`messageListener` inspects it: it reads the optional `"method"` field and
tests `"error" in response`.  Everything else is carried along opaquely
(the listener resolves with the whole payload). -/
structure Payload where
  method? : Option String
  hasError : Bool
deriving DecidableEq, Repr

/-- An outbound message, as far as the send path inspects it:
`sendRaw` reads `message["method"]` for reply matching, and
`sendWithoutWaiting` resolves with the message itself.  The serialized
params are carried opaquely. -/
structure Msg where
  method : String
  payload : String
deriving DecidableEq, Repr

/-- Embeds the `WikariError` class of `wikari-error.ts`: an error code plus
the contextual data the source attaches for that code (`WErrorArgMap`).
Data irrelevant to the claims (wrapped OS `Error` objects, message strings)
is omitted. -/
inductive WError where
  | argumentOutOfRange (argument : String) (lowerLimit : Int)
      (higherLimit : Int) (provided : Int)
  | socketBindFailed
  | invalidBulbState (state : WikariState)
  | responseValidationFailed
  | responseParseFailed
  | requestSendError
  | requestTimedOut (responseWaitMs : Nat)
  | bulbReturnedFailure (response : Payload)
deriving DecidableEq, Repr

/-- Embeds the `WikariErrorCode` const enum of `wikari-error.ts`. -/
inductive WikariErrorCode where
  | ArgumentOutOfRange
  | SocketBindFailed
  | InvalidBulbState
  | ResponseValidationFailed
  | ResponseParseFailed
  | RequestSendError
  | RequestTimedOut
  | BulbReturnedFailure
deriving DecidableEq, Repr

/-- The `code` field of a `WikariError`. -/
def WError.code : WError → WikariErrorCode
  | .argumentOutOfRange _ _ _ _ => .ArgumentOutOfRange
  | .socketBindFailed => .SocketBindFailed
  | .invalidBulbState _ => .InvalidBulbState
  | .responseValidationFailed => .ResponseValidationFailed
  | .responseParseFailed => .ResponseParseFailed
  | .requestSendError => .RequestSendError
  | .requestTimedOut _ => .RequestTimedOut
  | .bulbReturnedFailure _ => .BulbReturnedFailure

namespace Bulb

/-- Embeds `Bulb.isReadyToSend` (bulb.ts lines 365-389).  The source is a
sequence of `if` statements with early returns inside
`if (Bulb.state != WikariState.READY)`, falling through to `undefined`
(here `none`) when no branch fires — in particular `AWAITING_RESPONSE`
with `waitForResponse = false` falls through, as does `IDLE`.
The attached data of the error is `{ state, expectedState: [READY] }`;
we record the offending state. -/
def isReadyToSend (state : WikariState) (waitForResponse : Bool) :
    Option WError :=
  if state = .READY then none
  else if state = .BINDING then some (.invalidBulbState .BINDING)
  else if state = .CLOSED then some (.invalidBulbState .CLOSED)
  else if state = .AWAITING_RESPONSE ∧ waitForResponse then
    some (.invalidBulbState .AWAITING_RESPONSE)
  else none

/-- Embeds `Bulb.sendWithoutWaiting` (bulb.ts lines 474-495): the send
callback rejects with `RequestSendError` when the OS reports an error and
otherwise resolves with the sent message itself.  `osSendError` is the
OS outcome delivered to the callback. -/
def sendWithoutWaiting (message : Msg) (osSendError : Bool) :
    Except WError Msg :=
  if osSendError then .error .requestSendError else .ok message

/-- The observable outcome of one `sendRaw` call. -/
inductive SendRawOutcome where
  | threw (e : WError)
  | pending
  | resolved (m : Msg)
  | rejected (e : WError)
deriving DecidableEq, Repr

/-- Embeds `Bulb.sendRaw` (bulb.ts lines 508-520) composed with the
immediate effects of its two branches: the `isReadyToSend` gate throws its
error and leaves the state untouched; `sendWithWait` (lines 391-472) first
sets the shared state to `AWAITING_RESPONSE`, registers the single-shot
listener and the timer, and if the OS send callback reports an error it
clears the timer, restores `READY` and rejects with `RequestSendError`;
`sendWithoutWaiting` settles from the send callback without touching the
shared state.  The returned pair is (shared state afterwards, outcome);
`pending` means the waiting form is now awaiting its reply. -/
def sendRaw (state : WikariState) (message : Msg) (waitForResponse : Bool)
    (osSendError : Bool) : WikariState × SendRawOutcome :=
  match isReadyToSend state waitForResponse with
  | some e => (state, .threw e)
  | none =>
    if waitForResponse then
      if osSendError then (.READY, .rejected .requestSendError)
      else (.AWAITING_RESPONSE, .pending)
    else
      match sendWithoutWaiting message osSendError with
      | .ok m => (state, .resolved m)
      | .error e => (state, .rejected e)

/-- The bookkeeping of one in-flight correlated request inside
`sendWithWait`: the shared connection state, whether the timeout timer is
still pending, and whether the single-shot `messageListener` is still
registered on the shared socket. -/
structure CorrState where
  connState : WikariState
  timerActive : Bool
  listenerRegistered : Bool
deriving DecidableEq, Repr

/-- The bookkeeping right after `sendWithWait` has started (bulb.ts lines
391-433): state set to `AWAITING_RESPONSE`, listener on, timer armed. -/
def sendWithWaitStart : CorrState :=
  { connState := .AWAITING_RESPONSE, timerActive := true,
    listenerRegistered := true }

/-- Embeds `messageListener` inside `Bulb.sendWithWait` (bulb.ts lines
397-432).  Input: the bulb's address (`this.address`), the sent command's
method, the datagram's source address (`rinfo.address`) and its parse
result (`none` when `JSON.parse` throws), and the current bookkeeping.
Output: new bookkeeping, and the settlement (`resolve`/`reject`) performed
on the pending promise, if any.

Source control flow: a datagram from another address returns early; inside
the `try`, a payload carrying a `method` different from the sent one
returns early; otherwise the timer is cleared, the listener deregistered,
the promise rejected with `BulbReturnedFailure` when `"error" in response`
and resolved with the payload otherwise, and the state set to `READY`.
A parse failure jumps to the `catch`, which only rejects with
`ResponseParseFailed` — no cleanup runs there. -/
def messageListener (selfAddress sentMethod : String) (src : String)
    (content : Option Payload) (s : CorrState) :
    CorrState × Option (Except WError Payload) :=
  if src ≠ selfAddress then (s, none)
  else
    match content with
    | none => (s, some (.error .responseParseFailed))
    | some response =>
      match response.method? with
      | some m =>
        if m ≠ sentMethod then (s, none)
        else
          ({ connState := .READY, timerActive := false,
             listenerRegistered := false },
           some (if response.hasError then
               .error (.bulbReturnedFailure response)
             else .ok response))
      | none =>
        ({ connState := .READY, timerActive := false,
           listenerRegistered := false },
         some (if response.hasError then
             .error (.bulbReturnedFailure response)
           else .ok response))

/-- Embeds the timeout callback of `Bulb.sendWithWait` (bulb.ts lines
459-470): when the timer fires it deregisters `messageListener` from the
socket and rejects with `RequestTimedOut` carrying
`this.responseTimeout ?? DEFAULT_RESPONSE_WAIT_MS`.  It performs no other
action — in particular it does not call `setInstanceState`.
`responseTimeout` is the per-instance override (`undefined` = `none`). -/
def timeoutHandler (responseTimeout : Option Nat) (s : CorrState) :
    CorrState × WError :=
  ({ s with timerActive := false, listenerRegistered := false },
   .requestTimedOut (responseTimeout.getD DEFAULT_RESPONSE_WAIT_MS))

-- #######################################################
--   Convenience builders (bulb.ts lines 201-360)
-- #######################################################

/-- Embeds the `Pilot` type of `types.ts` (`pilotTemplate`): the sparse
set of optional state fields sent in a `setPilot` command. -/
structure Pilot where
  sceneId : Option Int := none
  speed : Option Int := none
  dimming : Option Int := none
  temp : Option Int := none
  r : Option Int := none
  g : Option Int := none
  b : Option Int := none
  c : Option Int := none
  w : Option Int := none
  state : Option Bool := none
deriving DecidableEq, Repr

/-- A builder's outcome: `.error e` means the builder returned or threw
`e` before reaching `setPilot`; `.ok p` means it called `setPilot p`
(one datagram send). -/
abbrev BuilderResult := Except WError Pilot

/-- The datagrams a builder run causes: an error outcome sends nothing,
a success outcome sends exactly the one `setPilot` message. -/
def builderSends : BuilderResult → List Pilot
  | .error _ => []
  | .ok p => [p]

/-- Embeds `Bulb.brightness` (bulb.ts lines 270-284): rejects with
`ArgumentOutOfRange` when `brightness < 0 || brightness > 100`, otherwise
calls `setPilot({ dimming: brightness })`. -/
def brightness (b : Int) : BuilderResult :=
  if b < 0 ∨ b > 100 then
    .error (.argumentOutOfRange "brightness" 0 100 b)
  else .ok { dimming := some b }

/-- The optional scene arguments of `Bulb.scene` (`GetSceneArgs`). -/
structure SceneArgs where
  speed : Option Int := none
  dimming : Option Int := none
deriving DecidableEq, Repr

/-- The `Object.entries(args)` loop of `Bulb.scene` (bulb.ts lines
247-262): each of `speed` and `dimming`, when present, must lie in
1..100. -/
def sceneArgsCheck (args : SceneArgs) : Option WError :=
  match args.speed with
  | some v =>
    if v < 1 ∨ v > 100 then
      some (.argumentOutOfRange "speed" 1 100 v)
    else
      match args.dimming with
      | some d =>
        if d < 1 ∨ d > 100 then
          some (.argumentOutOfRange "dimming" 1 100 d)
        else none
      | none => none
  | none =>
    match args.dimming with
    | some d =>
      if d < 1 ∨ d > 100 then
        some (.argumentOutOfRange "dimming" 1 100 d)
      else none
    | none => none

/-- Embeds `Bulb.scene` (bulb.ts lines 234-268): rejects with
`ArgumentOutOfRange` when `sceneId < 1 || sceneId > 32`, then checks the
optional args, then calls `setPilot({ sceneId, ...args })`. -/
def scene (sceneId : Int) (args : SceneArgs) : BuilderResult :=
  if sceneId < 1 ∨ sceneId > 32 then
    .error (.argumentOutOfRange "sceneId" 1 32 sceneId)
  else
    match sceneArgsCheck args with
    | some e => .error e
    | none =>
      .ok { sceneId := some sceneId, speed := args.speed,
            dimming := args.dimming }

/-- Embeds `Bulb.white` (bulb.ts lines 294-310): throws
`ArgumentOutOfRange` when `temp < 1000 || temp > 10_000`, otherwise calls
`setPilot({ temp })`. -/
def white (temp : Int) : BuilderResult :=
  if temp < 1000 ∨ temp > 10000 then
    .error (.argumentOutOfRange "temp" 1000 10000 temp)
  else .ok { temp := some temp }

/-- The rgbcw object argument of `Bulb.color`. -/
structure RgbcwArgs where
  r : Option Int := none
  g : Option Int := none
  b : Option Int := none
  c : Option Int := none
  w : Option Int := none
deriving DecidableEq, Repr

/-- `Object.entries(color)`: the present components, in key order. -/
def rgbcwEntries (col : RgbcwArgs) : List (String × Option Int) :=
  [("r", col.r), ("g", col.g), ("b", col.b), ("c", col.c), ("w", col.w)]

/-- The per-entry test of the `Bulb.color` loop:
`value < 0 || value > 255` on a present component. -/
def rgbcwOutOfRange (e : String × Option Int) : Bool :=
  match e.2 with
  | some v => decide (v < 0 ∨ v > 255)
  | none => false

/-- The `Object.entries(color)` loop of `Bulb.color` (bulb.ts lines
343-356): the first present component outside 0..255, in key order,
throws `ArgumentOutOfRange`. -/
def colorArgsCheck (col : RgbcwArgs) : Option WError :=
  match (rgbcwEntries col).find? rgbcwOutOfRange with
  | some (key, some v) => some (.argumentOutOfRange key 0 255 v)
  | _ => none

/-- Embeds the object branch of `Bulb.color` (bulb.ts lines 342-359):
the component check, then `setPilot(color)`. -/
def color (col : RgbcwArgs) : BuilderResult :=
  match colorArgsCheck col with
  | some e => .error e
  | none =>
    .ok { r := col.r, g := col.g, b := col.b, c := col.c, w := col.w }

/-- Whether a builder outcome is an `ArgumentOutOfRange` rejection. -/
def isArgRangeError : BuilderResult → Bool
  | .error (.argumentOutOfRange _ _ _ _) => true
  | _ => false

-- #######################################################
--   Subscription (bulb.ts lines 134-184)
-- #######################################################

/-- A decoded datagram as far as the subscription acknowledgement path
inspects it: the optional correlation `id` and the `env` that the ack
echoes.  Whether the payload passes `checkType(syncPilotResponseTemplate,
·)` is abstracted as a validator parameter, since `type-checker.ts` is
outside the given sources; only its boolean verdict feeds the control
flow here. -/
structure SyncPayload where
  id : Option Int
  env : String
deriving DecidableEq, Repr

/-- A `SyncPilotAckMsg` (types.ts lines 124-131) as built by the
subscription listener. -/
structure AckMsg where
  method : String
  id : Option Int
  env : String
  resultMac : String
deriving DecidableEq, Repr

/-- Embeds the long-lived listener that `Bulb.subscribe` installs after a
successful registration (bulb.ts lines 159-180).  The registered callback
is `msg => {...}`: it binds only the message buffer, so the source
address of the datagram (`src` here) is never inspected — there is no
address filter, unlike `onMessage`/`onSync`.  A parse failure is swallowed
by the `catch`; a payload passing the `syncPilot` shape check triggers
exactly one fire-and-forget `sendRaw(ack, false)` whose ack echoes the
notification's `id` and `env` and carries `this.macIdentifier`.  The
returned list is the acks sent for this one datagram. -/
def subscribeAckListener (macIdentifier : String)
    (validates : SyncPayload → Bool) (_src : String)
    (content : Option SyncPayload) : List AckMsg :=
  match content with
  | none => []
  | some response =>
    if validates response then
      [{ method := "syncPilot", id := response.id, env := response.env,
         resultMac := macIdentifier }]
    else []

-- #######################################################
--   Socket lifecycle (bulb.ts lines 562-597)
-- #######################################################

/-- The process-wide shared socket resource: the static `Bulb._state`
together with the listeners registered on `Bulb.client` and on
`Bulb.stateEmitter`, counted. -/
structure SocketState where
  state : WikariState
  msgObservers : Nat
  stateObservers : Nat
deriving DecidableEq, Repr

/-- Embeds `Bulb.closeConnection` (bulb.ts lines 590-596): an early return
when already `CLOSED`; otherwise `setInstanceState(CLOSED)`,
`stateEmitter.removeAllListeners()`, `client.removeAllListeners()`,
`client.close()`. -/
def closeConnection (s : SocketState) : SocketState :=
  if s.state = .CLOSED then s
  else { state := .CLOSED, msgObservers := 0, stateObservers := 0 }

/-- The operations of the public surface whose effect on the shared state
the source defines. -/
inductive Op where
  | sendRawOp (waitForResponse : Bool)
  | subscribeOp
  | newBulb
  | closeOp
deriving DecidableEq, Repr

/-- How each operation steps the shared socket state, from the source:
`sendRaw` throws (state untouched) when `isReadyToSend` errors, otherwise
the waiting form enters `AWAITING_RESPONSE` registering its single-shot
listener, and the non-waiting form touches nothing; `subscribe` goes
through `sendRaw` with `waitForResponse = true` (bulb.ts line 147);
the constructor calls `initClient` — which moves to `BINDING` — only when
the state is `IDLE` (bulb.ts line 83); `closeConnection` as above. -/
def opStep (s : SocketState) : Op → SocketState
  | .sendRawOp wait =>
    match isReadyToSend s.state wait with
    | some _ => s
    | none =>
      if wait then
        { s with state := .AWAITING_RESPONSE,
                 msgObservers := s.msgObservers + 1 }
      else s
  | .subscribeOp =>
    match isReadyToSend s.state true with
    | some _ => s
    | none =>
      { s with state := .AWAITING_RESPONSE,
               msgObservers := s.msgObservers + 1 }
  | .newBulb =>
    if s.state = .IDLE then { s with state := .BINDING } else s
  | .closeOp => closeConnection s

end Bulb

-- #######################################################
--   Discovery (wiz.ts: the discover function)
-- #######################################################

/-- Embeds the JavaScript call `addr.split(".")` for the single-character
separator `"."`: the maximal `'.'`-free segments of the string, empty
segments included, in order.  (Recursion over the character list so the
definition evaluates inside the kernel.) -/
def splitOnDotAux : List Char → List Char → List String
  | [], acc => [String.mk acc.reverse]
  | ch :: rest, acc =>
    if ch = '.' then String.mk acc.reverse :: splitOnDotAux rest []
    else splitOnDotAux rest (ch :: acc)

/-- `addr.split(".")`. -/
def splitOnDot (s : String) : List String := splitOnDotAux s.data []

/-- Embeds the broadcast-enabling condition of `discover`:
`addr.split(".").includes("255")` — `true` when ANY dot-separated
component equals `"255"`, not only the final one. -/
def discoverBroadcastEnabled (addr : String) : Bool :=
  (splitOnDot addr).contains "255"

/-- Embeds the message listener loop of `discover`: over the datagrams
received within the wait window, in arrival order, each one is decoded and
checked against `getPilotResponseTemplate`; every datagram passing the
check pushes `new Bulb(rinfo.address, { port })` onto the result — with no
deduplication by address.  A reply is modelled as its source address
paired with the verdict of the shape check (the validator itself,
`type-checker.ts`, is outside the given sources; only its boolean verdict
feeds the control flow).  The returned list is the addresses of the
constructed `Bulb` instances, in order. -/
def discoverRun : List (String × Bool) → List String
  | [] => []
  | (addr, valid) :: rest =>
    (if valid then [addr] else []) ++ discoverRun rest

-- #######################################################
--   Claims
-- #######################################################

/-- C1: while the shared state is `AWAITING_RESPONSE`, a second send with
`waitForResponse = true` throws `InvalidBulbState` (whatever the message
and OS outcome) and leaves the shared state unchanged; a send with
`waitForResponse = false` passes the gate untouched and settles through
`sendWithoutWaiting`.  The gate reads only the process-wide static state,
so this holds identically for every `Bulb` instance sharing the socket. -/
theorem awaiting_blocks_only_correlated_sends (m : Msg) (e : Bool) :
    Bulb.sendRaw .AWAITING_RESPONSE m true e =
      (.AWAITING_RESPONSE, .threw (.invalidBulbState .AWAITING_RESPONSE)) ∧
    Bulb.isReadyToSend .AWAITING_RESPONSE false = none ∧
    Bulb.sendRaw .AWAITING_RESPONSE m false false =
      (.AWAITING_RESPONSE, .resolved m) ∧
    Bulb.sendRaw .AWAITING_RESPONSE m false true =
      (.AWAITING_RESPONSE, .rejected .requestSendError) := by
  refine ⟨?_, ?_, ?_, ?_⟩ <;>
    simp [Bulb.sendRaw, Bulb.isReadyToSend, Bulb.sendWithoutWaiting]

/-- C2: evaluating the embedded timeout callback at the state in which
`sendWithWait` awaits its reply, with no per-instance override: it rejects
with `RequestTimedOut` carrying the 2000 ms default and deregisters the
single-shot observer, but the shared connection state is left at
`AWAITING_RESPONSE` — it is not restored to `READY` as the claim states
(the source's timeout callback contains no `setInstanceState` call). -/
theorem timeout_rejects_but_state_stays_awaiting :
    Bulb.timeoutHandler none Bulb.sendWithWaitStart =
      ({ connState := .AWAITING_RESPONSE, timerActive := false,
         listenerRegistered := false }, .requestTimedOut 2000) ∧
    (Bulb.timeoutHandler none Bulb.sendWithWaitStart).1.connState ≠
      .READY := by
  decide

/-- C9: a send with `waitForResponse = false`, from any state the gate
lets through, leaves the shared connection state unchanged, resolves with
the sent message itself on OS send success, and rejects with
`RequestSendError` on OS send failure. -/
theorem fire_and_forget_contract (st : WikariState) (m : Msg)
    (osErr : Bool) (h : Bulb.isReadyToSend st false = none) :
    (Bulb.sendRaw st m false osErr).1 = st ∧
    Bulb.sendRaw st m false false = (st, .resolved m) ∧
    Bulb.sendRaw st m false true = (st, .rejected .requestSendError) := by
  refine ⟨?_, ?_, ?_⟩ <;>
    cases osErr <;> simp [Bulb.sendRaw, h, Bulb.sendWithoutWaiting]

/-- C9 witness: the contract evaluated at `READY` with a concrete
message. -/
theorem fire_and_forget_contract_witness :
    (Bulb.sendRaw .READY ⟨"setPilot", "on"⟩ false false).1 = .READY ∧
    Bulb.sendRaw .READY ⟨"setPilot", "on"⟩ false false =
      (.READY, .resolved ⟨"setPilot", "on"⟩) ∧
    Bulb.sendRaw .READY ⟨"setPilot", "on"⟩ false true =
      (.READY, .rejected .requestSendError) :=
  fire_and_forget_contract .READY ⟨"setPilot", "on"⟩ false (by decide)

/-- C10: a datagram from the target address whose bytes fail JSON parsing
makes `messageListener` reject with `ResponseParseFailed` while leaving
the bookkeeping exactly as it was: state still `AWAITING_RESPONSE`, timer
still armed, observer still registered; and from `AWAITING_RESPONSE`
every correlated send — from any instance, the gate being process-wide —
throws `InvalidBulbState`. -/
theorem parse_failure_leaves_awaiting (addr sentMethod : String) :
    Bulb.messageListener addr sentMethod addr none Bulb.sendWithWaitStart =
      (Bulb.sendWithWaitStart, some (.error .responseParseFailed)) ∧
    Bulb.sendWithWaitStart.connState = .AWAITING_RESPONSE ∧
    Bulb.sendWithWaitStart.timerActive = true ∧
    Bulb.sendWithWaitStart.listenerRegistered = true ∧
    ∀ (m : Msg) (e : Bool),
      Bulb.sendRaw .AWAITING_RESPONSE m true e =
        (.AWAITING_RESPONSE, .threw (.invalidBulbState .AWAITING_RESPONSE)) := by
  refine ⟨?_, rfl, rfl, rfl, ?_⟩
  · simp [Bulb.messageListener]
  · intro m e
    simp [Bulb.sendRaw, Bulb.isReadyToSend]

/-- C4: for a pending correlated operation, (i) a datagram whose source
differs from the target address never settles it — parseable or not;
(ii) a decoded payload carrying a method name different from the sent
command's is ignored; (iii) a datagram from the target whose payload
carries no method name or the sent method name settles the operation:
it resolves with the decoded payload, or rejects with
`BulbReturnedFailure` when the payload carries the error marker, clearing
the timer, the observer and the `AWAITING_RESPONSE` state. -/
theorem listener_settles_only_on_match (selfAddr sentMethod src : String)
    (p : Payload) (s : Bulb.CorrState) :
    (src ≠ selfAddr →
      Bulb.messageListener selfAddr sentMethod src (some p) s = (s, none) ∧
      Bulb.messageListener selfAddr sentMethod src none s = (s, none)) ∧
    (∀ m, p.method? = some m → m ≠ sentMethod →
      Bulb.messageListener selfAddr sentMethod src (some p) s = (s, none)) ∧
    (src = selfAddr → (p.method? = none ∨ p.method? = some sentMethod) →
      Bulb.messageListener selfAddr sentMethod src (some p) s =
        ({ connState := .READY, timerActive := false,
           listenerRegistered := false },
         some (if p.hasError then .error (.bulbReturnedFailure p)
           else .ok p))) := by
  refine ⟨?_, ?_, ?_⟩
  · intro h
    constructor <;> simp [Bulb.messageListener, h]
  · intro m hm hne
    by_cases hsrc : src = selfAddr
    · simp [Bulb.messageListener, hsrc, hm, hne]
    · simp [Bulb.messageListener, hsrc]
  · rintro hsrc (hm | hm) <;> simp [Bulb.messageListener, hsrc, hm]

/-- C4 witness: the spec's scenario — pending request to `10.0.0.5`, a
reply injected from `10.0.0.6` leaves the operation outstanding, while
the same payload from `10.0.0.5` resolves it. -/
theorem listener_settles_only_on_match_witness :
    Bulb.messageListener "10.0.0.5" "getPilot" "10.0.0.6"
      (some ⟨some "getPilot", false⟩) Bulb.sendWithWaitStart =
      (Bulb.sendWithWaitStart, none) ∧
    Bulb.messageListener "10.0.0.5" "getPilot" "10.0.0.5"
      (some ⟨some "getPilot", false⟩) Bulb.sendWithWaitStart =
      ({ connState := .READY, timerActive := false,
         listenerRegistered := false },
       some (.ok ⟨some "getPilot", false⟩)) := by
  constructor
  · exact ((listener_settles_only_on_match "10.0.0.5" "getPilot" "10.0.0.6"
      ⟨some "getPilot", false⟩ Bulb.sendWithWaitStart).1 (by decide)).1
  · have h := (listener_settles_only_on_match "10.0.0.5" "getPilot"
      "10.0.0.5" ⟨some "getPilot", false⟩ Bulb.sendWithWaitStart).2.2
      rfl (Or.inr rfl)
    simpa using h

/-- C7: `closeConnection` puts the shared state in `CLOSED` and, when not
already closed, deregisters every observer; `CLOSED` is terminal — no
operation of the surface (either send form, `subscribe`, constructing a
new `Bulb`, or `closeConnection` again) steps the shared state out of it;
and a send attempted while `CLOSED` throws `InvalidBulbState` for both
forms. -/
theorem closed_is_terminal (s : Bulb.SocketState) (op : Bulb.Op) (m : Msg)
    (w e : Bool) :
    (Bulb.closeConnection s).state = .CLOSED ∧
    (s.state ≠ .CLOSED →
      Bulb.closeConnection s =
        { state := .CLOSED, msgObservers := 0, stateObservers := 0 }) ∧
    (s.state = .CLOSED → Bulb.opStep s op = s) ∧
    Bulb.sendRaw .CLOSED m w e =
      (.CLOSED, .threw (.invalidBulbState .CLOSED)) := by
  refine ⟨?_, ?_, ?_, ?_⟩
  · by_cases h : s.state = .CLOSED <;> simp [Bulb.closeConnection, h]
  · intro h
    simp [Bulb.closeConnection, h]
  · intro h
    cases op <;>
      simp [Bulb.opStep, Bulb.isReadyToSend, Bulb.closeConnection, h]
  · cases w <;> simp [Bulb.sendRaw, Bulb.isReadyToSend]

/-- Helper: an out-of-range `speed` or `dimming` value makes the scene
argument check of `Bulb.scene` produce an `ArgumentOutOfRange` error. -/
theorem sceneArgsCheck_range_err (sp dm : Option Int) (v : Int)
    (hfield : sp = some v ∨ dm = some v) (hv : v < 1 ∨ 100 < v) :
    ∃ a pv, Bulb.sceneArgsCheck ⟨sp, dm⟩ =
      some (.argumentOutOfRange a 1 100 pv) := by
  rcases hfield with rfl | rfl
  · refine ⟨"speed", v, ?_⟩
    simp only [Bulb.sceneArgsCheck]
    rw [if_pos hv]
  · cases sp with
    | none =>
      refine ⟨"dimming", v, ?_⟩
      simp only [Bulb.sceneArgsCheck]
      rw [if_pos hv]
    | some w =>
      by_cases hw : w < 1 ∨ w > 100
      · refine ⟨"speed", w, ?_⟩
        simp only [Bulb.sceneArgsCheck]
        rw [if_pos hw]
      · refine ⟨"dimming", v, ?_⟩
        simp only [Bulb.sceneArgsCheck]
        rw [if_neg hw, if_pos hv]

/-- Helper: an out-of-range present rgbcw component makes the component
check of `Bulb.color` produce an `ArgumentOutOfRange` error. -/
theorem colorArgsCheck_range_err (col : Bulb.RgbcwArgs) (v : Int)
    (hfield : col.r = some v ∨ col.g = some v ∨ col.b = some v ∨
      col.c = some v ∨ col.w = some v)
    (hv : v < 0 ∨ 255 < v) :
    ∃ a pv, Bulb.colorArgsCheck col =
      some (.argumentOutOfRange a 0 255 pv) := by
  have hmem : ∃ x, x ∈ Bulb.rgbcwEntries col ∧
      Bulb.rgbcwOutOfRange x = true := by
    have hval : Bulb.rgbcwOutOfRange ("r", some v) = true := by
      simp [Bulb.rgbcwOutOfRange]
      omega
    rcases hfield with h | h | h | h | h
    · exact ⟨("r", col.r), by simp [Bulb.rgbcwEntries],
        by rw [h]; exact hval⟩
    · exact ⟨("g", col.g), by simp [Bulb.rgbcwEntries],
        by rw [h]; exact hval⟩
    · exact ⟨("b", col.b), by simp [Bulb.rgbcwEntries],
        by rw [h]; exact hval⟩
    · exact ⟨("c", col.c), by simp [Bulb.rgbcwEntries],
        by rw [h]; exact hval⟩
    · exact ⟨("w", col.w), by simp [Bulb.rgbcwEntries],
        by rw [h]; exact hval⟩
  have hsome : ((Bulb.rgbcwEntries col).find? Bulb.rgbcwOutOfRange).isSome :=
    List.find?_isSome.mpr hmem
  cases hx : (Bulb.rgbcwEntries col).find? Bulb.rgbcwOutOfRange with
  | none => rw [hx] at hsome; simp at hsome
  | some x =>
    have hp := List.find?_some hx
    obtain ⟨key, val⟩ := x
    cases val with
    | none => simp [Bulb.rgbcwOutOfRange] at hp
    | some u =>
      refine ⟨key, u, ?_⟩
      simp only [Bulb.colorArgsCheck]
      rw [hx]

/-- C3 counterexample: `brightness(0)` — the value `0` lies outside the
claimed documented range 1..100, yet the builder performs the
`setPilot({ dimming: 0 })` send and returns no error: the source checks
`brightness < 0 || brightness > 100`. -/
theorem brightness_zero_is_accepted :
    Bulb.brightness 0 = .ok { dimming := some 0 } ∧
    Bulb.builderSends (Bulb.brightness 0) = [{ dimming := some 0 }] ∧
    (0 : Int) < 1 := by
  refine ⟨rfl, rfl, by decide⟩

/-- C3 amended: with the brightness range read as the source's 0..100
(all other ranges as claimed), every out-of-range value is rejected with
`ArgumentOutOfRange`, and a rejected builder run sends zero datagrams. -/
theorem builders_reject_out_of_range (n t v : Int) (args : Bulb.SceneArgs)
    (col : Bulb.RgbcwArgs) :
    ((n < 0 ∨ 100 < n) →
      Bulb.brightness n =
        .error (.argumentOutOfRange "brightness" 0 100 n)) ∧
    ((n < 1 ∨ 32 < n) →
      Bulb.scene n args =
        .error (.argumentOutOfRange "sceneId" 1 32 n)) ∧
    (((args.speed = some v ∨ args.dimming = some v) ∧
        (v < 1 ∨ 100 < v)) →
      Bulb.isArgRangeError (Bulb.scene n args) = true) ∧
    ((t < 1000 ∨ 10000 < t) →
      Bulb.white t = .error (.argumentOutOfRange "temp" 1000 10000 t)) ∧
    (((col.r = some v ∨ col.g = some v ∨ col.b = some v ∨
        col.c = some v ∨ col.w = some v) ∧ (v < 0 ∨ 255 < v)) →
      Bulb.isArgRangeError (Bulb.color col) = true) ∧
    (∀ r, Bulb.isArgRangeError r = true → Bulb.builderSends r = []) ∧
    (∀ e, Bulb.builderSends (.error e) = []) := by
  refine ⟨?_, ?_, ?_, ?_, ?_, ?_, ?_⟩
  · intro h
    simp only [Bulb.brightness]
    rw [if_pos h]
  · intro h
    simp only [Bulb.scene]
    rw [if_pos h]
  · rintro ⟨hfield, hv⟩
    by_cases hid : n < 1 ∨ n > 32
    · simp only [Bulb.scene]
      rw [if_pos hid]
      rfl
    · obtain ⟨sp, dm⟩ := args
      obtain ⟨a, pv, hcheck⟩ := sceneArgsCheck_range_err sp dm v hfield hv
      simp only [Bulb.scene]
      rw [if_neg hid, hcheck]
      rfl
  · intro h
    simp only [Bulb.white]
    rw [if_pos h]
  · rintro ⟨hfield, hv⟩
    obtain ⟨a, pv, hcheck⟩ := colorArgsCheck_range_err col v hfield hv
    simp only [Bulb.color]
    rw [hcheck]
    rfl
  · intro r hr
    cases r with
    | error e => rfl
    | ok p => simp [Bulb.isArgRangeError] at hr
  · intro e
    rfl

/-- C3 witness: each range check evaluated at a concrete out-of-range
input. -/
theorem builders_reject_out_of_range_witness :
    Bulb.brightness 101 =
      .error (.argumentOutOfRange "brightness" 0 100 101) ∧
    Bulb.scene 33 ⟨none, none⟩ =
      .error (.argumentOutOfRange "sceneId" 1 32 33) ∧
    Bulb.isArgRangeError (Bulb.scene 5 ⟨some 0, none⟩) = true ∧
    Bulb.white 500 =
      .error (.argumentOutOfRange "temp" 1000 10000 500) ∧
    Bulb.isArgRangeError (Bulb.color ⟨some 300, none, none, none, none⟩) =
      true := by
  have h := builders_reject_out_of_range 33 500 0 ⟨none, none⟩
    ⟨some 300, none, none, none, none⟩
  have h5 := builders_reject_out_of_range 5 500 0 ⟨some 0, none⟩
    ⟨some 300, none, none, none, none⟩
  have h101 := builders_reject_out_of_range 101 500 300 ⟨none, none⟩
    ⟨some 300, none, none, none, none⟩
  exact ⟨h101.1 (by decide), h.2.1 (by decide),
    h5.2.2.1 ⟨Or.inl rfl, by decide⟩, h.2.2.2.1 (by decide),
    h101.2.2.2.2.1 ⟨Or.inl rfl, by decide⟩⟩

/-- C7 witness: closing from `READY` with observers registered zeroes
them and closes; every operation applied in the closed state leaves it
unchanged. -/
theorem closed_is_terminal_witness :
    Bulb.closeConnection
        { state := .READY, msgObservers := 2, stateObservers := 1 } =
      { state := .CLOSED, msgObservers := 0, stateObservers := 0 } ∧
    Bulb.opStep { state := .CLOSED, msgObservers := 0, stateObservers := 0 }
      .subscribeOp =
      { state := .CLOSED, msgObservers := 0, stateObservers := 0 } := by
  constructor
  · exact (closed_is_terminal
      { state := .READY, msgObservers := 2, stateObservers := 1 }
      .subscribeOp ⟨"getPilot", ""⟩ true false).2.1 (by decide)
  · exact (closed_is_terminal
      { state := .CLOSED, msgObservers := 0, stateObservers := 0 }
      .subscribeOp ⟨"getPilot", ""⟩ true false).2.2.1 rfl

/-- C5 counterexample: three distinct devices reply with valid state
reports and one of them replies twice — the discovery listener pushes one
`Bulb` per valid reply with no deduplication, so four instances result,
not three. -/
theorem duplicate_reply_duplicates_bulb :
    discoverRun [("10.0.0.1", true), ("10.0.0.1", true),
                 ("10.0.0.2", true), ("10.0.0.3", true)] =
      ["10.0.0.1", "10.0.0.1", "10.0.0.2", "10.0.0.3"] ∧
    (discoverRun [("10.0.0.1", true), ("10.0.0.1", true),
                  ("10.0.0.2", true), ("10.0.0.3", true)]).length ≠ 3 := by
  exact ⟨rfl, by decide⟩

/-- C5 amended: each reply validating as a state report yields one `Bulb`
instance — the instances are exactly the valid replies' addresses in
arrival order, and each address gets as many instances as it sent valid
replies (so a duplicate reply yields a duplicate instance). -/
theorem discover_one_bulb_per_valid_reply (replies : List (String × Bool))
    (a : String) :
    discoverRun replies =
      (replies.filter (fun r => r.2)).map (fun r => r.1) ∧
    (discoverRun replies).count a =
      (replies.filter (fun r => r.1 == a && r.2)).length := by
  induction replies with
  | nil => exact ⟨rfl, rfl⟩
  | cons hd tl ih =>
    obtain ⟨addr, valid⟩ := hd
    refine ⟨?_, ?_⟩
    · cases valid <;> simp [discoverRun, List.filter_cons, ih.1]
    · cases valid with
      | false => simpa [discoverRun, List.filter_cons] using ih.2
      | true =>
        by_cases haddr : (addr == a) = true
        · simp [discoverRun, List.filter_cons, List.count_cons, haddr,
            ih.2, Nat.add_comm]
        · simp [discoverRun, List.filter_cons, List.count_cons, haddr,
            ih.2]

/-- C6 counterexample: the long-lived observer installed by `subscribe`
does not inspect the datagram's source address (its callback binds only
the message): a datagram from `10.0.0.6`, validating as a notification,
triggers an acknowledgement even though the subscribed device is another
address, and the observer's output is identical for any two source
addresses. -/
theorem ack_sent_for_foreign_address :
    Bulb.subscribeAckListener "aabbccddeeff" (fun _ => true) "10.0.0.6"
      (some ⟨some 7, "pro"⟩) =
      [{ method := "syncPilot", id := some 7, env := "pro",
         resultMac := "aabbccddeeff" }] ∧
    Bulb.subscribeAckListener "aabbccddeeff" (fun _ => true) "10.0.0.6"
      (some ⟨some 7, "pro"⟩) =
    Bulb.subscribeAckListener "aabbccddeeff" (fun _ => true) "10.0.0.5"
      (some ⟨some 7, "pro"⟩) :=
  ⟨rfl, rfl⟩

/-- C6 amended: the observer installed by a successful `subscribe`
processes datagrams from every source address (its output does not depend
on the source); each datagram decoding and validating as a notification
triggers exactly one fire-and-forget `NotificationAck` echoing the
notification's correlation id and `env` and carrying the device's
`macIdentifier`; non-validating or undecodable datagrams trigger
nothing. -/
theorem subscribe_ack_per_notification (mac : String)
    (validates : Bulb.SyncPayload → Bool) (src other : String)
    (p : Bulb.SyncPayload) :
    (validates p = true →
      Bulb.subscribeAckListener mac validates src (some p) =
        [{ method := "syncPilot", id := p.id, env := p.env,
           resultMac := mac }]) ∧
    (validates p = false →
      Bulb.subscribeAckListener mac validates src (some p) = []) ∧
    Bulb.subscribeAckListener mac validates src none = [] ∧
    Bulb.subscribeAckListener mac validates src (some p) =
      Bulb.subscribeAckListener mac validates other (some p) := by
  refine ⟨?_, ?_, rfl, rfl⟩
  · intro h
    simp [Bulb.subscribeAckListener, h]
  · intro h
    simp [Bulb.subscribeAckListener, h]

/-- C6 witness: a validating notification draws exactly the one echoing
ack, and a non-validating payload draws none. -/
theorem subscribe_ack_per_notification_witness :
    Bulb.subscribeAckListener "0123456789ab" (fun p => p.env == "pro")
      "10.0.0.5" (some ⟨some 3, "pro"⟩) =
      [{ method := "syncPilot", id := some 3, env := "pro",
         resultMac := "0123456789ab" }] ∧
    Bulb.subscribeAckListener "0123456789ab" (fun p => p.env == "pro")
      "10.0.0.5" (some ⟨none, "dev"⟩) = [] :=
  ⟨(subscribe_ack_per_notification "0123456789ab" (fun p => p.env == "pro")
      "10.0.0.5" "10.0.0.9" ⟨some 3, "pro"⟩).1 (by decide),
   (subscribe_ack_per_notification "0123456789ab" (fun p => p.env == "pro")
      "10.0.0.5" "10.0.0.9" ⟨none, "dev"⟩).2.1 (by decide)⟩

/-- C8 counterexample: `192.255.0.1` has `255` as its second octet and
`1` as its final octet, yet discovery enables broadcast mode for it —
the source tests `addr.split(".").includes("255")`, any octet. -/
theorem broadcast_enabled_for_nonfinal_255 :
    discoverBroadcastEnabled "192.255.0.1" = true ∧
    (splitOnDot "192.255.0.1").getLast? = some "1" := by
  exact ⟨by decide, by decide⟩

/-- C8 amended: discovery enables broadcast mode exactly when some
dot-separated octet of the target address equals `"255"`; in particular
it is enabled whenever the final octet is `"255"`, and it is not enabled
when no octet is `"255"`. -/
theorem broadcast_iff_some_octet_255 (addr : String) :
    (discoverBroadcastEnabled addr = true ↔ "255" ∈ splitOnDot addr) ∧
    ((splitOnDot addr).getLast? = some "255" →
      discoverBroadcastEnabled addr = true) := by
  have hiff : discoverBroadcastEnabled addr = true ↔
      "255" ∈ splitOnDot addr := by
    simp [discoverBroadcastEnabled]
  exact ⟨hiff, fun h => hiff.mpr (List.mem_of_getLast?_eq_some h)⟩

/-- C8 witness: the default-style broadcast address `192.168.1.255` ends
in `255` and gets the broadcast flag. -/
theorem broadcast_iff_some_octet_255_witness :
    discoverBroadcastEnabled "192.168.1.255" = true :=
  (broadcast_iff_some_octet_255 "192.168.1.255").2 (by decide)

end Wikari
